import Mathlib

/-!
Shallow embedding of the `firewall` Django app: the IP-firewall middleware
(`firewall/middlewate.py`), the two ORM models (`firewall/models.py`) and the
bootstrap data migration (`firewall/migrations/0002_auto_add_localhost.py`).

The relational store is modelled as explicit state (`Db`): `AllowedIP.objects.all()`
is a read of `Db.allowedIPs`, `BlockedIPLog.objects.create(...)` appends one row to
`Db.blockedLogs`.  The auto-assigned `timestamp` (`auto_now_add=True`) is modelled
by a `now` parameter.  `request.META.get(...)` returning a possibly absent value is
modelled with `Option String` for the forwarding header; the transport-layer peer
address `REMOTE_ADDR` is always set by the hosting framework and is modelled as a
plain `String`.  The `print` diagnostics in `__call__` have no effect on state or
response and are not modelled.
-/

/-- Model of `firewall.models.AllowedIP`: one allowlist row
(`ip_address = models.GenericIPAddressField(unique=True)`,
`description = models.CharField(...)`). -/
structure AllowedIP where
  ip_address : String
  description : String
deriving DecidableEq, Repr

/-- Model of `firewall.models.BlockedIPLog`: one denial-log row
(`ip_address`, `accessed_path`, `timestamp` with `auto_now_add=True`). -/
structure BlockedIPLog where
  ip_address : String
  accessed_path : String
  timestamp : Nat
deriving DecidableEq, Repr

/-- The persistent store: the allowlist table and the denial-log table. -/
structure Db where
  allowedIPs : List AllowedIP
  blockedLogs : List BlockedIPLog
deriving DecidableEq, Repr

/-- The post-schema, pre-seeding store: both tables empty
(state after migration `0001_initial`). -/
def Db.initial : Db := { allowedIPs := [], blockedLogs := [] }

/-- The request metadata dictionary `request.META`, restricted to the two keys the
middleware reads: `HTTP_X_FORWARDED_FOR` (absent unless a proxy set the
`X-Forwarded-For` header) and `REMOTE_ADDR` (the direct peer address, always set
by the framework). -/
structure RequestMeta where
  HTTP_X_FORWARDED_FOR : Option String
  REMOTE_ADDR : String
deriving DecidableEq, Repr

/-- An inbound HTTP request as the middleware sees it: its metadata and its path. -/
structure Request where
  META : RequestMeta
  path : String
deriving DecidableEq, Repr

/-- An HTTP response: status code and body.  `django.http.HttpResponseForbidden`
is the case `status = 403`. -/
structure HttpResponse where
  status : Nat
  body : String
deriving DecidableEq, Repr

/-- Model of `django.http.HttpResponseForbidden(body)`: a 403 response. -/
def HttpResponseForbidden (body : String) : HttpResponse :=
  { status := 403, body := body }

/-- Python truthiness of an optional string: `None` and `""` are falsy,
every other string is truthy (`if x_forwarded_for:`). -/
def pyTruthy : Option String → Bool
  | none => false
  | some s => s ≠ ""

/-- Split a character list on a separator character, Python-style: the result is
always non-empty, and separators delimit (possibly empty) fields. -/
def splitCharList (sep : Char) : List Char → List (List Char)
  | [] => [[]]
  | c :: cs =>
    let rest := splitCharList sep cs
    if c = sep then [] :: rest
    else
      match rest with
      | [] => [[c]]
      | field :: fields => (c :: field) :: fields

/-- Model of Python `s.split(sep)` for a one-character separator: always returns a
non-empty list of fields (`"".split(',') == ['']`, `"a,".split(',') == ['a', '']`). -/
def pySplit (s : String) (sep : Char) : List String :=
  (splitCharList sep s.data).map String.mk

/-- Model of Python `s.strip()`: remove leading and trailing whitespace. -/
def pyStrip (s : String) : String :=
  String.mk (((s.data.dropWhile Char.isWhitespace).reverse.dropWhile
    Char.isWhitespace).reverse)

/-- Model of the middleware object: its constructor stores the downstream handler
(`self.get_response = get_response`).  The downstream handler is an external
collaborator, modelled as a pure function from requests to responses. -/
structure IPFirewallMiddleware where
  get_response : Request → HttpResponse

/-- Model of `IPFirewallMiddleware.get_client_ip`:

```python
x_forwarded_for = request.META.get('HTTP_X_FORWARDED_FOR')
if x_forwarded_for:
    ip = x_forwarded_for.split(',')[0]
else:
    ip = request.META.get('REMOTE_ADDR')
return ip
```

Note `split(',')[0]` takes the first comma-separated entry verbatim; there is no
`strip()`.  Python `s.split(',')` always yields a non-empty list, so indexing
`[0]` never fails and `headD ""` is exactly element 0. -/
def IPFirewallMiddleware.get_client_ip (_self : IPFirewallMiddleware)
    (request : Request) : String :=
  let x_forwarded_for := request.META.HTTP_X_FORWARDED_FOR
  if pyTruthy x_forwarded_for then
    (pySplit (x_forwarded_for.getD "") ',').headD ""
  else
    request.META.REMOTE_ADDR

/-- Model of `IPFirewallMiddleware.__call__`:

```python
allowed_ips = [ip.ip_address for ip in AllowedIP.objects.all()]
remote_ip = self.get_client_ip(request)
if remote_ip not in allowed_ips:
    BlockedIPLog.objects.create(ip_address=remote_ip, accessed_path=request.path)
    return HttpResponseForbidden(f"Access denied for IP: {remote_ip}")
return self.get_response(request)
```

Returns the response together with the store state after the call. -/
def IPFirewallMiddleware.call (self : IPFirewallMiddleware) (db : Db) (now : Nat)
    (request : Request) : HttpResponse × Db :=
  let allowed_ips := db.allowedIPs.map (fun ip => ip.ip_address)
  let remote_ip := self.get_client_ip request
  if remote_ip ∉ allowed_ips then
    (HttpResponseForbidden ("Access denied for IP: " ++ remote_ip),
     { db with
        blockedLogs := db.blockedLogs ++
          [{ ip_address := remote_ip, accessed_path := request.path, timestamp := now }] })
  else
    (self.get_response request, db)

/-- Model of `add_default_ip` in migration `0002_auto_add_localhost`:

```python
AllowedIP.objects.create(ip_address="127.0.0.1", description="localhost default access")
AllowedIP.objects.create(ip_address='10.223.112.35', description='Postman test')
```
-/
def add_default_ip (db : Db) : Db :=
  { db with
      allowedIPs := db.allowedIPs ++
        [{ ip_address := "127.0.0.1", description := "localhost default access" },
         { ip_address := "10.223.112.35", description := "Postman test" }] }

/-- The Client-Address Resolver as the specification words it (for comparison with
`IPFirewallMiddleware.get_client_ip`): if the forwarding header is present and
non-empty, split on comma, take the first entry, and trim surrounding
whitespace; otherwise the peer address. -/
def resolver_spec (request : Request) : String :=
  let x_forwarded_for := request.META.HTTP_X_FORWARDED_FOR
  if pyTruthy x_forwarded_for then
    pyStrip ((pySplit (x_forwarded_for.getD "") ',').headD "")
  else
    request.META.REMOTE_ADDR

/-! Concrete fixtures used by witnesses and counterexamples. -/

/-- A concrete downstream handler: always answers 200 `hello`. -/
def okHandler : Request → HttpResponse := fun _ => { status := 200, body := "hello" }

/-- A concrete middleware instance wrapping `okHandler`. -/
def mw : IPFirewallMiddleware := { get_response := okHandler }

/-- A concrete request carrying a forwarding header whose first entry has a
leading space. -/
def reqSpacedHeader : Request :=
  { META := { HTTP_X_FORWARDED_FOR := some " 9.9.9.9, 1.2.3.4",
              REMOTE_ADDR := "5.5.5.5" }, path := "/admin" }

/-- A concrete request with no forwarding header from peer `8.8.8.8`. -/
def reqPeer8 : Request :=
  { META := { HTTP_X_FORWARDED_FOR := none, REMOTE_ADDR := "8.8.8.8" }, path := "/data" }

/-- A concrete request with no forwarding header from peer `5.5.5.5`. -/
def reqPeer5 : Request :=
  { META := { HTTP_X_FORWARDED_FOR := none, REMOTE_ADDR := "5.5.5.5" }, path := "/" }

/-- A concrete request with no forwarding header from peer `10.223.112.35`. -/
def reqPostman : Request :=
  { META := { HTTP_X_FORWARDED_FOR := none, REMOTE_ADDR := "10.223.112.35" },
    path := "/api" }

/-- A concrete request with no forwarding header from the loopback peer. -/
def reqLoopback : Request :=
  { META := { HTTP_X_FORWARDED_FOR := none, REMOTE_ADDR := "127.0.0.1" }, path := "/" }

/-- A concrete store whose allowlist holds only the loopback address. -/
def dbLoopbackOnly : Db :=
  { allowedIPs := [{ ip_address := "127.0.0.1", description := "localhost default access" }],
    blockedLogs := [] }

/-! Claim theorems. -/

/-- C1: for every request whose resolved client address is not in the current
allowlist, the gate returns a 403 whose plain-text body is
`Access denied for IP: <address>`, appends exactly one `BlockedIPLog` row with
that address and the requested path, and never invokes the downstream handler:
the right-hand side does not mention `self.get_response`, and `self` is
universally quantified, so the result is independent of the downstream
handler. -/
theorem C1_deny_logs_and_403 (self : IPFirewallMiddleware) (db : Db) (now : Nat)
    (request : Request)
    (h : self.get_client_ip request ∉ db.allowedIPs.map (fun ip => ip.ip_address)) :
    self.call db now request =
      (HttpResponseForbidden ("Access denied for IP: " ++ self.get_client_ip request),
       { db with
          blockedLogs := db.blockedLogs ++
            [{ ip_address := self.get_client_ip request,
               accessed_path := request.path, timestamp := now }] }) := by
  simp only [IPFirewallMiddleware.call]
  rw [if_pos h]

/-- Witness for C1: allowlist `{127.0.0.1}`, peer `8.8.8.8` → 403 with body
`Access denied for IP: 8.8.8.8` and one new log row. -/
theorem C1_deny_logs_and_403_witness :
    mw.call dbLoopbackOnly 0 reqPeer8 =
      (HttpResponseForbidden ("Access denied for IP: " ++ mw.get_client_ip reqPeer8),
       { dbLoopbackOnly with
          blockedLogs := dbLoopbackOnly.blockedLogs ++
            [{ ip_address := mw.get_client_ip reqPeer8,
               accessed_path := reqPeer8.path, timestamp := 0 }] }) :=
  C1_deny_logs_and_403 mw dbLoopbackOnly 0 reqPeer8 (by decide)

/-- C2: for every request whose resolved client address exactly matches some
allowlist entry, the gate returns the downstream handler's response unchanged
and leaves the store untouched (in particular, no `BlockedIPLog` row is
created). -/
theorem C2_allow_passthrough (self : IPFirewallMiddleware) (db : Db) (now : Nat)
    (request : Request)
    (h : self.get_client_ip request ∈ db.allowedIPs.map (fun ip => ip.ip_address)) :
    self.call db now request = (self.get_response request, db) := by
  simp only [IPFirewallMiddleware.call]
  rw [if_neg (by simpa using h)]

/-- Witness for C2: allowlist `{127.0.0.1}`, loopback peer → pass-through, store
unchanged. -/
theorem C2_allow_passthrough_witness :
    mw.call dbLoopbackOnly 0 reqLoopback = (mw.get_response reqLoopback, dbLoopbackOnly) :=
  C2_allow_passthrough mw dbLoopbackOnly 0 reqLoopback (by decide)

/-- Counterexample for C3: with header ` 9.9.9.9, 1.2.3.4` the first
comma-separated entry trimmed is `9.9.9.9` (as `resolver_spec`, written from the
specification's words, computes), but the code returns the untrimmed ` 9.9.9.9`:
`split(',')[0]` performs no `strip()`. -/
theorem C3_counterexample_no_trim :
    mw.get_client_ip reqSpacedHeader = " 9.9.9.9" ∧
    resolver_spec reqSpacedHeader = "9.9.9.9" ∧
    mw.get_client_ip reqSpacedHeader ≠ resolver_spec reqSpacedHeader := by
  refine ⟨by decide, by decide, by decide⟩

/-- C3 amended: for every request in which the forwarding header is present and
non-empty, the resolver returns the first comma-separated entry of the header
value verbatim, with no whitespace trimming. -/
theorem C3_first_entry_verbatim (self : IPFirewallMiddleware) (request : Request)
    (x : String) (hx : request.META.HTTP_X_FORWARDED_FOR = some x) (hne : x ≠ "") :
    self.get_client_ip request = (pySplit x ',').headD "" := by
  simp [IPFirewallMiddleware.get_client_ip, hx, pyTruthy, hne]

/-- Witness for the amended C3: header ` 9.9.9.9, 1.2.3.4` resolves to its first
entry ` 9.9.9.9`, leading space preserved. -/
theorem C3_first_entry_verbatim_witness :
    mw.get_client_ip reqSpacedHeader = (pySplit " 9.9.9.9, 1.2.3.4" ',').headD "" :=
  C3_first_entry_verbatim mw reqSpacedHeader " 9.9.9.9, 1.2.3.4" rfl (by decide)

/-- C4: the gate's decision is total and fail-closed: for every resolved client
address string — membership is a plain string comparison, so the empty string
and malformed strings are included — the gate either forwards (exact allowlist
match) or answers 403; there is no third branch. -/
theorem C4_fail_closed_total (self : IPFirewallMiddleware) (db : Db) (now : Nat)
    (request : Request) :
    (self.get_client_ip request ∈ db.allowedIPs.map (fun ip => ip.ip_address) ∧
      self.call db now request = (self.get_response request, db)) ∨
    (self.get_client_ip request ∉ db.allowedIPs.map (fun ip => ip.ip_address) ∧
      (self.call db now request).1 =
        HttpResponseForbidden ("Access denied for IP: " ++ self.get_client_ip request)) := by
  by_cases h : self.get_client_ip request ∈ db.allowedIPs.map (fun ip => ip.ip_address)
  · left
    refine ⟨h, ?_⟩
    simp only [IPFirewallMiddleware.call]
    rw [if_neg (by simpa using h)]
  · right
    refine ⟨h, ?_⟩
    simp only [IPFirewallMiddleware.call]
    rw [if_pos h]

/-- C5: when no forwarding header is present, or its value is the empty string
(falsy in Python), the resolver returns the direct connection's peer address. -/
theorem C5_peer_fallback (self : IPFirewallMiddleware) (request : Request)
    (h : request.META.HTTP_X_FORWARDED_FOR = none ∨
         request.META.HTTP_X_FORWARDED_FOR = some "") :
    self.get_client_ip request = request.META.REMOTE_ADDR := by
  rcases h with h | h <;> simp [IPFirewallMiddleware.get_client_ip, h, pyTruthy]

/-- Witness for C5: no forwarding header, peer `5.5.5.5` → resolved address
`5.5.5.5`. -/
theorem C5_peer_fallback_witness :
    mw.get_client_ip reqPeer5 = reqPeer5.META.REMOTE_ADDR :=
  C5_peer_fallback mw reqPeer5 (Or.inl rfl)

/-- C6: the allowlist is read fresh from the store on every call, so appending an
entry for address `c` to the store makes the very next request resolving to `c`
be forwarded, with no further invalidation step: the decision is a function of
the store contents passed to that very call. -/
theorem C6_fresh_read_immediate (self : IPFirewallMiddleware) (db : Db) (now : Nat)
    (c d : String) (request : Request) (h : self.get_client_ip request = c) :
    self.call { db with allowedIPs :=
        db.allowedIPs ++ [{ ip_address := c, description := d }] } now request =
      (self.get_response request,
       { db with allowedIPs :=
          db.allowedIPs ++ [{ ip_address := c, description := d }] }) := by
  simp only [IPFirewallMiddleware.call]
  rw [if_neg]
  simp [h]

/-- Witness for C6: starting from the empty store, adding `8.8.8.8` makes the
next request from peer `8.8.8.8` pass through. -/
theorem C6_fresh_read_immediate_witness :
    mw.call { Db.initial with allowedIPs :=
        Db.initial.allowedIPs ++ [{ ip_address := "8.8.8.8", description := "test" }] }
      0 reqPeer8 =
      (mw.get_response reqPeer8,
       { Db.initial with allowedIPs :=
          Db.initial.allowedIPs ++ [{ ip_address := "8.8.8.8", description := "test" }] }) :=
  C6_fresh_read_immediate mw Db.initial 0 "8.8.8.8" "test" reqPeer8 (by decide)

/-- C7: denial logging is not deduplicated: running the same denied request twice
(threading the store state) appends two independent `BlockedIPLog` rows, one per
call. -/
theorem C7_no_dedup (self : IPFirewallMiddleware) (db : Db) (t1 t2 : Nat)
    (request : Request)
    (h : self.get_client_ip request ∉ db.allowedIPs.map (fun ip => ip.ip_address)) :
    ((self.call (self.call db t1 request).2 t2 request).2).blockedLogs =
      db.blockedLogs ++
        [{ ip_address := self.get_client_ip request, accessed_path := request.path,
           timestamp := t1 },
         { ip_address := self.get_client_ip request, accessed_path := request.path,
           timestamp := t2 }] := by
  simp only [IPFirewallMiddleware.call]
  rw [if_pos h]
  simp only []
  rw [if_pos h]
  simp [List.append_assoc]

/-- Witness for C7: two identical denied requests from `8.8.8.8` against the
loopback-only allowlist leave two log rows. -/
theorem C7_no_dedup_witness :
    ((mw.call (mw.call dbLoopbackOnly 0 reqPeer8).2 1 reqPeer8).2).blockedLogs =
      dbLoopbackOnly.blockedLogs ++
        [{ ip_address := mw.get_client_ip reqPeer8, accessed_path := reqPeer8.path,
           timestamp := 0 },
         { ip_address := mw.get_client_ip reqPeer8, accessed_path := reqPeer8.path,
           timestamp := 1 }] :=
  C7_no_dedup mw dbLoopbackOnly 0 1 reqPeer8 (by decide)

/-- C8: applying the bootstrap seeding migration to the initial (post-schema)
store results in an allowlist containing the loopback address `127.0.0.1`. -/
theorem C8_seed_loopback :
    "127.0.0.1" ∈ (add_default_ip Db.initial).allowedIPs.map (fun ip => ip.ip_address) := by
  decide

/-- C9: the seeding migration adds exactly two rows — `127.0.0.1` and the
non-loopback `10.223.112.35` (description `Postman test`) — so on the freshly
seeded store a request resolving to `10.223.112.35` is allowed by default. -/
theorem C9_seed_two_entries (self : IPFirewallMiddleware) (now : Nat)
    (request : Request) (h : self.get_client_ip request = "10.223.112.35") :
    (add_default_ip Db.initial).allowedIPs =
      [{ ip_address := "127.0.0.1", description := "localhost default access" },
       { ip_address := "10.223.112.35", description := "Postman test" }] ∧
    self.call (add_default_ip Db.initial) now request =
      (self.get_response request, add_default_ip Db.initial) := by
  refine ⟨rfl, ?_⟩
  simp only [IPFirewallMiddleware.call]
  rw [if_neg]
  simp [h, add_default_ip, Db.initial]

/-- Witness for C9: peer `10.223.112.35`, no forwarding header, against the
freshly seeded store → pass-through. -/
theorem C9_seed_two_entries_witness :
    (add_default_ip Db.initial).allowedIPs =
      [{ ip_address := "127.0.0.1", description := "localhost default access" },
       { ip_address := "10.223.112.35", description := "Postman test" }] ∧
    mw.call (add_default_ip Db.initial) 0 reqPostman =
      (mw.get_response reqPostman, add_default_ip Db.initial) :=
  C9_seed_two_entries mw 0 reqPostman (by decide)

/-- C10: frame property of a single call: the allowlist table is never modified;
on an allowed request the whole store (denial log included) is unchanged; and on
a denied request the only state change is appending one `BlockedIPLog` row. -/
theorem C10_frame (self : IPFirewallMiddleware) (db : Db) (now : Nat)
    (request : Request) :
    ((self.call db now request).2).allowedIPs = db.allowedIPs ∧
    (self.get_client_ip request ∈ db.allowedIPs.map (fun ip => ip.ip_address) →
      (self.call db now request).2 = db) ∧
    (self.get_client_ip request ∉ db.allowedIPs.map (fun ip => ip.ip_address) →
      ((self.call db now request).2).blockedLogs =
        db.blockedLogs ++
          [{ ip_address := self.get_client_ip request, accessed_path := request.path,
             timestamp := now }]) := by
  by_cases h : self.get_client_ip request ∈ db.allowedIPs.map (fun ip => ip.ip_address)
  · have hc : self.call db now request = (self.get_response request, db) := by
      simp only [IPFirewallMiddleware.call]
      rw [if_neg (by simpa using h)]
    rw [hc]
    exact ⟨rfl, fun _ => rfl, fun hn => absurd h hn⟩
  · have hc := h
    simp only [IPFirewallMiddleware.call]
    rw [if_pos hc]
    exact ⟨rfl, fun hm => absurd hm h, fun _ => rfl⟩

/-- Witness for C10 on the deny path: peer `8.8.8.8` against the loopback-only
allowlist leaves the allowlist unchanged and appends exactly one log row. -/
theorem C10_frame_witness :
    ((mw.call dbLoopbackOnly 0 reqPeer8).2).allowedIPs = dbLoopbackOnly.allowedIPs ∧
    (mw.get_client_ip reqPeer8 ∈ dbLoopbackOnly.allowedIPs.map (fun ip => ip.ip_address) →
      (mw.call dbLoopbackOnly 0 reqPeer8).2 = dbLoopbackOnly) ∧
    (mw.get_client_ip reqPeer8 ∉ dbLoopbackOnly.allowedIPs.map (fun ip => ip.ip_address) →
      ((mw.call dbLoopbackOnly 0 reqPeer8).2).blockedLogs =
        dbLoopbackOnly.blockedLogs ++
          [{ ip_address := mw.get_client_ip reqPeer8, accessed_path := reqPeer8.path,
             timestamp := 0 }]) :=
  C10_frame mw dbLoopbackOnly 0 reqPeer8
